import Mathlib

/-!
Verification development for the state-synchronization and combat-resolution
core of a multiplayer action game (source: `src/game/player.rs`,
`src/game/input.rs`).  Pure fragments of the Rust systems are shallowly
embedded as Lean functions; `f32` values are idealized as real numbers,
`u8`/`u16` arithmetic is modelled on `Nat` with explicit saturation, and a
Rust `panic!` (from `Option::unwrap` on `None`) is modelled by returning
`none` from the embedded function.
-/

open Real

/-! ### Constants from `player.rs` -/

def PLAYER_DEFAULT_HP : Nat := 100

def SWORD_DAMAGE : Nat := 40

def SWORD_LENGTH : ℝ := 90

def SWORD_DEGREES : ℝ := 70

def DEFAULT_COOLDOWN : ℝ := 0.8

def ATTACK_BITFLAG : Nat := 1

def SPAWN_BITFLAG : Nat := 2

def SHIELD_BITFLAG : Nat := 4

/-! ### Saturating `u8` arithmetic

`u8::saturating_add` / `saturating_mul` clamp at 255; `saturating_sub` on
`u8` coincides with truncated `Nat` subtraction for in-range values. -/

def saturatingAdd8 (a b : Nat) : Nat := min (a + b) 255

def saturatingMul8 (a b : Nat) : Nat := min (a * b) 255

/-! ### Ring history buffer

Modelled from the spec: `CircularBuffer` lives in `src/buffers.rs`, which is
not part of the provided sources; §4.2 of the spec describes it as a fixed
capacity `C` container of `Option` slots indexed by `tick mod C`, with
`get`, unconditional `set`, and `set_with_time` (which additionally records
the authoritative tick that produced the write). -/

structure CircularBuffer (cap : Nat) (T : Type) where
  slots : Nat → Option T
  time : Nat

def CircularBuffer.new {cap : Nat} {T : Type} : CircularBuffer cap T :=
  ⟨fun _ => none, 0⟩

def CircularBuffer.get {cap : Nat} {T : Type} (b : CircularBuffer cap T) (tick : Nat) :
    Option T :=
  b.slots (tick % cap)

def CircularBuffer.set {cap : Nat} {T : Type} (b : CircularBuffer cap T) (tick : Nat)
    (v : Option T) : CircularBuffer cap T :=
  ⟨fun i => if i = tick % cap then v else b.slots i, b.time⟩

def CircularBuffer.set_with_time {cap : Nat} {T : Type} (b : CircularBuffer cap T)
    (tick : Nat) (v : Option T) (authTick : Nat) : CircularBuffer cap T :=
  ⟨fun i => if i = tick % cap then v else b.slots i, authTick⟩

/-! ### Geometry

The Rust code works with `f32` vectors and `f32::atan2`; both are idealized
over `ℝ`.  `atan2 y x` is the argument of the complex number `x + y·i`,
which matches the Rust convention (range `(-π, π]`, `atan2 0 0 = 0`). -/

noncomputable def atan2 (y x : ℝ) : ℝ := Complex.arg (x + y * Complex.I)

/-- Models Rust `f32::to_radians`: multiplication by `π / 180`. -/
noncomputable def toRadians (d : ℝ) : ℝ := d * (π / 180)

/-- Models bevy `Vec2::distance`: the Euclidean distance of two points. -/
noncomputable def distV2 (p q : ℝ × ℝ) : ℝ :=
  Real.sqrt ((p.1 - q.1) ^ 2 + (p.2 - q.2) ^ 2)

/-- Modelled from the spec: the representative of an angle in the interval
`(-π, π]` modulo `2π` ("the absolute angular difference to the attacker's
facing, normalized into `(−π, π]`").  Used to compare the code's
`atan2(sin, cos)` normalization against the spec's words. -/
noncomputable def specNormalize (d : ℝ) : ℝ :=
  toIocMod (mul_pos two_pos Real.pi_pos) (-π) d

/-! ### Data model

Per-player components from `player.rs` / `components.rs`.  `Stats` and
`StoredPowerUps` are declared in `src/components.rs` (not among the provided
sources); their fields are reconstructed from their uses in `player.rs`.
`kd_ratio` is an `f32` in the source, idealized as `ℝ` (field renamed to
`kdRatio`). -/

inductive PowerUpType where
  | Meat
  | AttackSpeedUp
  | DamageDealtUp
  | DamageReductionUp
  | MovementSpeedUp
deriving DecidableEq

@[ext]
structure Stats where
  score : Nat
  enemiesKilled : Nat
  playersKilled : Nat
  campsCaptured : Nat
  deaths : Nat
  kdRatio : ℝ

structure Health where
  current : Nat
  max : Nat
  dead : Bool
deriving DecidableEq

inductive Visibility where
  | Visible
  | Hidden
deriving DecidableEq

/-- The components of one player entity that the embedded systems touch:
id, the four ring buffers (position, direction, event bitflags, health),
stored powerups, shield flag, stats, attack-cooldown duration, and whether
this entity is the locally controlled one. -/
@[ext]
structure PState (cap : Nat) where
  id : Nat
  pb : CircularBuffer cap (ℝ × ℝ)
  db : CircularBuffer cap ℝ
  eb : CircularBuffer cap Nat
  hb : CircularBuffer cap Nat
  spu : PowerUpType → Nat
  shieldActive : Bool
  stats : Stats
  cooldown : ℝ
  isLocal : Bool

structure AttackEvent where
  seq_num : Nat
  id : Nat
deriving DecidableEq

structure SpawnEvent where
  id : Nat
deriving DecidableEq

/-- Models bevy `Timer` in `TimerMode::Once`: elapsed time clamps at the
duration; `finished` once elapsed reaches the duration; `reset` restarts. -/
structure Timer where
  elapsed : ℝ
  duration : ℝ

noncomputable def Timer.tick (c : Timer) (delta : ℝ) : Timer :=
  ⟨min (c.elapsed + delta) c.duration, c.duration⟩

def Timer.finished (c : Timer) : Prop := c.duration ≤ c.elapsed

def Timer.reset (c : Timer) : Timer := ⟨0, c.duration⟩

/-! ### Combat resolution (`attack_simulate`, lines 378-517)

`resolvePair` embeds the body of the player-vs-player combination loops
(lines 435-473 and 476-514; the two bodies are identical up to the final
`score` update, which saturates in the first and wraps in the second —
both are plain `+ 20` in the `Nat` idealization).  `resolveEnemy` embeds the
body of the enemy loop (lines 396-415).  The `Option` result models panics:
`none` is the `Option::unwrap` panic on an absent health slot at the current
tick (lines 400 and 455). -/

noncomputable def killUpdateTarget (s : Stats) : Stats :=
  let d := s.deaths + 1
  { s with
    deaths := d
    kdRatio := if d ≠ 0 then (s.playersKilled : ℝ) / (d : ℝ) else (s.playersKilled : ℝ) }

noncomputable def killUpdateAttacker (s : Stats) : Stats :=
  let k := s.playersKilled + 1
  { s with
    playersKilled := k
    kdRatio := if s.deaths ≠ 0 then (k : ℝ) / (s.deaths : ℝ) else (k : ℝ)
    score := s.score + 20 }

open Classical in
noncomputable def resolvePair {cap : Nat} (ddu : Nat) (tickNow : Nat) (ev : AttackEvent)
    (attacker target : PState cap) : Option (PState cap × PState cap) :=
  if attacker.id ≠ ev.id then some (attacker, target)
  else if target.shieldActive = true ∨ attacker.shieldActive = true then
    some (attacker, target)
  else
    match attacker.db.get ev.seq_num, attacker.pb.get ev.seq_num with
    | some sword_angle, some player_pos =>
      if target.id = ev.id then some (attacker, target)
      else
        match target.pb.get ev.seq_num with
        | some target_pos =>
          if distV2 player_pos target_pos > SWORD_LENGTH then some (attacker, target)
          else
            let combat_angle :=
              atan2 (target_pos.2 - player_pos.2) (target_pos.1 - player_pos.1)
            let angle_diff := sword_angle - combat_angle
            let angle_diff := atan2 (Real.sin angle_diff) (Real.cos angle_diff)
            if |angle_diff| > toRadians SWORD_DEGREES then some (attacker, target)
            else
              let damage :=
                saturatingAdd8 SWORD_DAMAGE
                  (saturatingMul8 (attacker.spu PowerUpType.DamageDealtUp) ddu)
              match target.hb.get tickNow with
              | none => none
              | some h0 =>
                let hp := h0 - damage
                let target' := { target with hb := target.hb.set tickNow (some hp) }
                if hp ≤ 0 then
                  some ({ attacker with stats := killUpdateAttacker attacker.stats },
                        { target' with stats := killUpdateTarget target'.stats })
                else some (attacker, target')
        | none => some (attacker, target)
    | _, _ => some (attacker, target)

/-- One enemy's components read by the enemy loop of `attack_simulate`. -/
@[ext]
structure EState (cap : Nat) where
  pb : CircularBuffer cap (ℝ × ℝ)
  hb : CircularBuffer cap Nat
  lastAttacker : Option Nat

open Classical in
noncomputable def resolveEnemy {cap : Nat} (ddu : Nat) (tickNow : Nat) (ev : AttackEvent)
    (player_pos : ℝ × ℝ) (sword_angle : ℝ) (attackerId : Nat) (spuDD : Nat)
    (enemy : EState cap) : Option (EState cap) :=
  match enemy.pb.get ev.seq_num with
  | none => some enemy
  | some enemy_pos =>
    match enemy.hb.get tickNow with
    | none => none
    | some hp0 =>
      if hp0 ≤ 0 then some enemy
      else
        let combat_angle :=
          atan2 (enemy_pos.2 - player_pos.2) (enemy_pos.1 - player_pos.1)
        let angle_diff := sword_angle - combat_angle
        let angle_diff := atan2 (Real.sin angle_diff) (Real.cos angle_diff)
        if distV2 player_pos enemy_pos > SWORD_LENGTH then some enemy
        else if |angle_diff| > toRadians SWORD_DEGREES then some enemy
        else
          let damage := saturatingAdd8 SWORD_DAMAGE (saturatingMul8 spuDD ddu)
          some { enemy with
                 lastAttacker := some attackerId
                 hb := enemy.hb.set tickNow (some (hp0 - damage)) }

/-! ### Powerup pickup (`powerup_grab_simulate`, lines 261-292)

Embeds the body of the player × powerup double loop for one pair.
`MEAT_VALUE` and `ATTACK_SPEED_UP` live in the missing `components.rs`, so
they are passed as parameters (modelled from the spec, which lists them as
fixed constants).  Result `none` models the `unwrap` panic on an absent
health slot at the current tick (line 276). -/

open Classical in
noncomputable def powerup_grab {cap : Nat} (meatValue : Nat) (asu : ℝ) (tick : Nat)
    (playerPos powerupPos : ℝ × ℝ) (ptype : PowerUpType)
    (hb : CircularBuffer cap Nat) (cooldownDur : ℝ) (spu : PowerUpType → Nat) :
    Option ((PowerUpType → Nat) × CircularBuffer cap Nat × ℝ) :=
  if distV2 playerPos powerupPos < 32 then
    let spu' := fun ty => if ty = ptype then saturatingAdd8 (spu ptype) 1 else spu ty
    if ptype = PowerUpType.Meat then
      match hb.get tick with
      | none => none
      | some h =>
        some (spu', hb.set tick (some (saturatingAdd8 h meatValue)), cooldownDur)
    else if ptype = PowerUpType.AttackSpeedUp then
      some (spu', hb, cooldownDur * (1 / asu))
    else some (spu', hb, cooldownDur)
  else some (spu, hb, cooldownDur)

/-! ### Attack input and host attack emission (`attack_input` lines 295-318,
`attack_host` lines 320-337) -/

open Classical in
noncomputable def attack_input {cap : Nat} (delta : ℝ) (tick : Nat)
    (mousePressed : Bool) (c : Timer) (eb : CircularBuffer cap Nat)
    (shieldActive : Bool) : Timer × CircularBuffer cap Nat :=
  let c := c.tick delta
  if shieldActive = true then (c, eb)
  else if ¬(mousePressed = true ∧ c.finished) then (c, eb)
  else
    match eb.get tick with
    | none => (c.reset, eb.set tick (some ATTACK_BITFLAG))
    | some events => (c.reset, eb.set tick (some (events ||| ATTACK_BITFLAG)))

def attack_host {cap : Nat} (tick : Nat) (eb : CircularBuffer cap Nat)
    (shieldActive : Bool) : List AttackEvent :=
  if shieldActive = true then []
  else
    match eb.get tick with
    | none => []
    | some events =>
      if events &&& ATTACK_BITFLAG ≠ 0 then [⟨tick, 0⟩] else []

/-! ### Shield visibility (`shield_draw`, lines 572-592)

The source query iterates over every player (it does not distinguish the
local player); the read is at `tick.saturating_sub(DELAY)` for all of them.
`DELAY` lives in the missing `net.rs` and is passed as parameter `D`
(modelled from the spec, §4.1: a fixed positive network-delay constant). -/

def shield_draw {cap : Nat} (D tick : Nat) (eb : CircularBuffer cap Nat) :
    Bool × Visibility :=
  if (eb.get (tick - D)).getD 0 &&& SHIELD_BITFLAG ≠ 0 then
    (true, Visibility.Visible)
  else (false, Visibility.Hidden)

/-! ### Health lifecycle (`health_simulate`, lines 608-640)

Result: updated `Health`, updated visibility, whether a local-death
notification fired, whether a local-spawn notification fired. -/

def health_simulate {cap : Nat} (tick : Nat) (hb : CircularBuffer cap Nat)
    (hp : Health) (vis : Visibility) (isLocal : Bool) :
    Health × Visibility × Bool × Bool :=
  match hb.get tick with
  | none => (hp, vis, false, false)
  | some v =>
    if 0 < v ∧ hp.dead = true then
      (⟨v, PLAYER_DEFAULT_HP, false⟩, Visibility.Visible, false, isLocal)
    else if v = 0 ∧ hp.dead = false then
      (⟨v, PLAYER_DEFAULT_HP, true⟩, Visibility.Hidden, isLocal, false)
    else (⟨v, PLAYER_DEFAULT_HP, hp.dead⟩, vis, false, false)

/-! ### Snapshot application (`handle_player_ticks`, lines 658-696)

A `PlayerTickEvent` carries the snapshot for one entity at one tick.
`ATTACK_SPEED_UP` lives in the missing `components.rs` and is passed as
parameter `asu` (modelled from the spec, §4.6).  The cooldown-duration
update `DEFAULT_COOLDOWN * (1/ATTACK_SPEED_UP)^stacks` mirrors line 675. -/

structure SnapshotEvent where
  seq_num : Nat
  id : Nat
  pos : ℝ × ℝ
  dir : ℝ
  events : Nat
  hp : Nat
  stats : Stats
  powerups : PowerUpType → Nat

open Classical in
noncomputable def handle_player_tick {cap : Nat} (asu : ℝ) (tickNow : Nat)
    (ev : SnapshotEvent) (p : PState cap) : PState cap :=
  if p.id = ev.id then
    let prev := p.spu
    let spu := ev.powerups
    let cooldown :=
      if prev ≠ spu then
        if prev PowerUpType.AttackSpeedUp ≠ spu PowerUpType.AttackSpeedUp then
          DEFAULT_COOLDOWN * (1 / asu) ^ (spu PowerUpType.AttackSpeedUp)
        else p.cooldown
      else p.cooldown
    let pb := p.pb.set ev.seq_num (some ev.pos)
    let hb := p.hb.set tickNow (some ev.hp)
    let db := p.db.set ev.seq_num (some ev.dir)
    let eb := if p.isLocal = true then p.eb else p.eb.set ev.seq_num (some ev.events)
    let shield :=
      if p.isLocal = true then p.shieldActive
      else if ev.events &&& SHIELD_BITFLAG ≠ 0 then true else p.shieldActive
    { p with
      stats := ev.stats
      spu := spu
      cooldown := cooldown
      pb := pb
      hb := hb
      db := db
      eb := eb
      shieldActive := shield }
  else p

/-! ### Command application (`handle_usercmd_events`, lines 710-734) -/

structure UserCmdEvent where
  seq_num : Nat
  id : Nat
  pos : ℝ × ℝ
  dir : ℝ
  events : Nat

def handle_usercmd {cap : Nat} (ev : UserCmdEvent) (p : PState cap) :
    PState cap × List AttackEvent × List SpawnEvent :=
  if p.id = ev.id then
    let pb := p.pb.set_with_time ev.seq_num (some ev.pos) ev.seq_num
    let db := p.db.set ev.seq_num (some ev.dir)
    let eb := p.eb.set ev.seq_num (some ev.events)
    let atks :=
      if ev.events &&& ATTACK_BITFLAG ≠ 0 then [AttackEvent.mk ev.seq_num ev.id] else []
    let spawns :=
      if ev.events &&& SPAWN_BITFLAG ≠ 0 then [SpawnEvent.mk ev.id] else []
    let shield := if ev.events &&& SHIELD_BITFLAG ≠ 0 then true else p.shieldActive
    ({ p with pb := pb, db := db, eb := eb, shieldActive := shield }, atks, spawns)
  else (p, [], [])

/-! ### Mouse-button capture (`handle_mouse_button_events`, `input.rs`
lines 88-105)

This system uses an older per-player input buffer whose element type and
buffer API live outside the provided sources.  Modelled from the spec
(§4.2/§4.3): a ring buffer of per-tick records carrying an `InputState`
(movement vector plus attack flag); `get` is total here because the source
clones the returned record without unwrapping. -/

structure InputState where
  movement : ℝ × ℝ
  attack : Bool

structure PlayerTick where
  input : InputState

structure InputBuffer (cap : Nat) where
  slots : Nat → PlayerTick

def InputBuffer.get {cap : Nat} (b : InputBuffer cap) (tick : Nat) : PlayerTick :=
  b.slots (tick % cap)

def InputBuffer.set {cap : Nat} (b : InputBuffer cap) (tick : Nat) (v : PlayerTick) :
    InputBuffer cap :=
  ⟨fun i => if i = tick % cap then v else b.slots i⟩

structure MouseButtonInput where
  button : Nat
  pressed : Bool

def handle_mouse_button_events {cap : Nat} (attackBind : Nat) (tick : Nat)
    (events : List MouseButtonInput) (pl : InputBuffer cap) : InputBuffer cap :=
  events.foldl
    (fun pl e =>
      if e.button = attackBind then
        let pt := pl.get (tick - 1)
        let pt := { pt with input := { pt.input with attack := e.pressed } }
        pl.set tick pt
      else pl)
    pl

/-! ### Concrete combatant states used by witnesses and instances -/

def mkAttacker (cap s : Nat) (p : ℝ × ℝ) (θ : ℝ) : PState cap :=
  { id := 0
    pb := CircularBuffer.new.set s (some p)
    db := CircularBuffer.new.set s (some θ)
    eb := CircularBuffer.new
    hb := CircularBuffer.new
    spu := fun _ => 0
    shieldActive := false
    stats := ⟨0, 0, 0, 0, 0, 0⟩
    cooldown := DEFAULT_COOLDOWN
    isLocal := true }

def mkTarget (cap s : Nat) (q : ℝ × ℝ) (hb : CircularBuffer cap Nat) : PState cap :=
  { id := 1
    pb := CircularBuffer.new.set s (some q)
    db := CircularBuffer.new
    eb := CircularBuffer.new
    hb := hb
    spu := fun _ => 0
    shieldActive := false
    stats := ⟨0, 0, 0, 0, 0, 0⟩
    cooldown := DEFAULT_COOLDOWN
    isLocal := false }

theorem CircularBuffer.get_set_same {cap : Nat} {T : Type} (b : CircularBuffer cap T)
    (tick : Nat) (v : Option T) : (b.set tick v).get tick = v := by
  simp [CircularBuffer.get, CircularBuffer.set]

theorem CircularBuffer.get_set_with_time_same {cap : Nat} {T : Type}
    (b : CircularBuffer cap T) (tick : Nat) (v : Option T) (a : Nat) :
    (b.set_with_time tick v a).get tick = v := by
  simp [CircularBuffer.get, CircularBuffer.set_with_time]

theorem CircularBuffer.set_set_same {cap : Nat} {T : Type} (b : CircularBuffer cap T)
    (tick : Nat) (v : Option T) : (b.set tick v).set tick v = b.set tick v := by
  simp only [CircularBuffer.set]
  refine congrArg (fun f => CircularBuffer.mk f b.time) (funext fun i => ?_)
  by_cases h : i = tick % cap <;> simp [h]

theorem CircularBuffer.get_set_ne {cap : Nat} {T : Type} (b : CircularBuffer cap T)
    (t₁ t₂ : Nat) (v : Option T) (h : t₁ % cap ≠ t₂ % cap) :
    (b.set t₂ v).get t₁ = b.get t₁ := by
  simp [CircularBuffer.get, CircularBuffer.set, h]

theorem arg_cos_sin (α : ℝ) :
    Complex.arg (↑(Real.cos α) + ↑(Real.sin α) * Complex.I) = specNormalize α := by
  rw [Complex.ofReal_cos, Complex.ofReal_sin, ← Complex.exp_mul_I]
  exact Complex.arg_exp_mul_I α

/-- The code's normalization `angle_diff.sin().atan2(angle_diff.cos())`
agrees with the spec's "normalized into `(−π, π]`". -/
theorem atan2_sin_cos (d : ℝ) : atan2 (Real.sin d) (Real.cos d) = specNormalize d :=
  arg_cos_sin d

theorem atan2_smul_sin_cos {r : ℝ} (hr : 0 < r) (α : ℝ) :
    atan2 (r * Real.sin α) (r * Real.cos α) = specNormalize α := by
  unfold atan2
  have h : (↑(r * Real.cos α) + ↑(r * Real.sin α) * Complex.I : ℂ) =
      ↑r * (↑(Real.cos α) + ↑(Real.sin α) * Complex.I) := by
    push_cast
    ring
  rw [h, Complex.arg_real_mul _ hr, arg_cos_sin]

theorem specNormalize_mem_Ioc (d : ℝ) : specNormalize d ∈ Set.Ioc (-π) π := by
  have h := toIocMod_mem_Ioc (mul_pos two_pos Real.pi_pos) (-π) d
  have e : -π + 2 * π = π := by ring
  rwa [e] at h

theorem specNormalize_eq_self {d : ℝ} (h : d ∈ Set.Ioc (-π) π) :
    specNormalize d = d := by
  unfold specNormalize
  rw [toIocMod_eq_self]
  have e : -π + 2 * π = π := by ring
  rwa [e]

theorem specNormalize_sub_specNormalize (θ α : ℝ) :
    specNormalize (θ - specNormalize α) = specNormalize (θ - α) := by
  unfold specNormalize
  have h := self_sub_toIocMod (mul_pos two_pos Real.pi_pos) (-π) α
  have e : θ - toIocMod (mul_pos two_pos Real.pi_pos) (-π) α =
      (θ - α) + toIocDiv (mul_pos two_pos Real.pi_pos) (-π) α • (2 * π) := by
    rw [← h]; ring
  rw [e, toIocMod_add_zsmul]

/-! ### Evaluation lemmas for `resolvePair` -/

theorem resolvePair_hit_eval {cap : Nat} (ddu t : Nat) (ev : AttackEvent)
    (a b : PState cap) (θ : ℝ) (p q : ℝ × ℝ) (h0 : Nat)
    (hid : a.id = ev.id) (htid : b.id ≠ ev.id)
    (hsa : a.shieldActive = false) (hsb : b.shieldActive = false)
    (hdb : a.db.get ev.seq_num = some θ) (hpb : a.pb.get ev.seq_num = some p)
    (htpb : b.pb.get ev.seq_num = some q)
    (hdist : distV2 p q ≤ SWORD_LENGTH)
    (hang : |specNormalize (θ - atan2 (q.2 - p.2) (q.1 - p.1))| ≤
      toRadians SWORD_DEGREES)
    (hhb : b.hb.get t = some h0) :
    resolvePair ddu t ev a b =
      (let damage := saturatingAdd8 SWORD_DAMAGE
          (saturatingMul8 (a.spu PowerUpType.DamageDealtUp) ddu)
       let hp := h0 - damage
       let b' := { b with hb := b.hb.set t (some hp) }
       if hp ≤ 0 then
         some ({ a with stats := killUpdateAttacker a.stats },
               { b' with stats := killUpdateTarget b'.stats })
       else some (a, b')) := by
  have h1 : ¬(distV2 p q > SWORD_LENGTH) := not_lt.mpr hdist
  have h2 : ¬(|specNormalize (θ - atan2 (q.2 - p.2) (q.1 - p.1))| >
      toRadians SWORD_DEGREES) := not_lt.mpr hang
  simp only [resolvePair, hid, ne_eq, not_true_eq_false, if_false, ite_false,
    hsa, hsb, or_self, hdb, hpb, htpb, htid, if_neg htid, hhb, atan2_sin_cos,
    h1, h2, if_false]
  simp [atan2_sin_cos, h2]

theorem resolvePair_panic_eval {cap : Nat} (ddu t : Nat) (ev : AttackEvent)
    (a b : PState cap) (θ : ℝ) (p q : ℝ × ℝ)
    (hid : a.id = ev.id) (htid : b.id ≠ ev.id)
    (hsa : a.shieldActive = false) (hsb : b.shieldActive = false)
    (hdb : a.db.get ev.seq_num = some θ) (hpb : a.pb.get ev.seq_num = some p)
    (htpb : b.pb.get ev.seq_num = some q)
    (hdist : distV2 p q ≤ SWORD_LENGTH)
    (hang : |specNormalize (θ - atan2 (q.2 - p.2) (q.1 - p.1))| ≤
      toRadians SWORD_DEGREES)
    (hhb : b.hb.get t = none) :
    resolvePair ddu t ev a b = none := by
  have h1 : ¬(distV2 p q > SWORD_LENGTH) := not_lt.mpr hdist
  have h2 : ¬(|specNormalize (θ - atan2 (q.2 - p.2) (q.1 - p.1))| >
      toRadians SWORD_DEGREES) := not_lt.mpr hang
  simp only [resolvePair, hid, ne_eq, not_true_eq_false, if_false, ite_false,
    hsa, hsb, or_self, hdb, hpb, htpb, htid, if_neg htid, hhb, atan2_sin_cos,
    h1, h2, if_false]
  simp [atan2_sin_cos, h2]

theorem resolvePair_miss_eval {cap : Nat} (ddu t : Nat) (ev : AttackEvent)
    (a b : PState cap) (θ : ℝ) (p q : ℝ × ℝ)
    (hdb : a.db.get ev.seq_num = some θ) (hpb : a.pb.get ev.seq_num = some p)
    (htpb : b.pb.get ev.seq_num = some q)
    (hmiss : ¬(distV2 p q ≤ SWORD_LENGTH ∧
      |specNormalize (θ - atan2 (q.2 - p.2) (q.1 - p.1))| ≤
        toRadians SWORD_DEGREES)) :
    resolvePair ddu t ev a b = some (a, b) := by
  by_cases hid : a.id ≠ ev.id
  · simp [resolvePair, hid]
  by_cases hsh : b.shieldActive = true ∨ a.shieldActive = true
  · simp [resolvePair, hid, hsh]
  by_cases htid : b.id = ev.id
  · simp [resolvePair, hid, hsh, hdb, hpb, htid]
  by_cases hd : distV2 p q > SWORD_LENGTH
  · simp [resolvePair, hid, hsh, hdb, hpb, htid, htpb, hd]
  have hang : |specNormalize (θ - atan2 (q.2 - p.2) (q.1 - p.1))| >
      toRadians SWORD_DEGREES := by
    rcases not_and_or.mp hmiss with h | h
    · exact absurd (not_lt.mp hd) h
    · exact not_le.mp h
  simp [resolvePair, hid, hsh, hdb, hpb, htid, htpb, hd, atan2_sin_cos, hang]

/-! ### Concrete-geometry helper lemmas -/

theorem specNormalize_zero : specNormalize 0 = 0 :=
  specNormalize_eq_self ⟨neg_lt_zero.mpr Real.pi_pos, Real.pi_pos.le⟩

theorem atan2_zero_pos {x : ℝ} (hx : 0 < x) : atan2 0 x = 0 := by
  have h := atan2_smul_sin_cos hx 0
  simpa [specNormalize_zero] using h

theorem toRadians_nonneg {d : ℝ} (hd : 0 ≤ d) : 0 ≤ toRadians d := by
  unfold toRadians
  have := Real.pi_pos
  positivity

theorem distV2_polar (p : ℝ × ℝ) {r : ℝ} (hr : 0 ≤ r) (α : ℝ) :
    distV2 p (p.1 + r * Real.cos α, p.2 + r * Real.sin α) = r := by
  unfold distV2
  have hs := Real.sin_sq_add_cos_sq α
  have h : (p.1 - (p.1 + r * Real.cos α, p.2 + r * Real.sin α).1) ^ 2 +
      (p.2 - (p.1 + r * Real.cos α, p.2 + r * Real.sin α).2) ^ 2 = r ^ 2 := by
    simp only []
    nlinarith [hs]
  rw [h, Real.sqrt_sq hr]

theorem atan2_polar (p : ℝ × ℝ) {r : ℝ} (hr : 0 < r) (α : ℝ) :
    atan2 ((p.2 + r * Real.sin α) - p.2) ((p.1 + r * Real.cos α) - p.1) =
      specNormalize α := by
  have e1 : (p.1 + r * Real.cos α) - p.1 = r * Real.cos α := by ring
  have e2 : (p.2 + r * Real.sin α) - p.2 = r * Real.sin α := by ring
  rw [e1, e2, atan2_smul_sin_cos hr]

theorem specNormalize_rel (θ off : ℝ) :
    specNormalize (θ - specNormalize (θ + off)) = specNormalize (-off) := by
  rw [specNormalize_sub_specNormalize, show θ - (θ + off) = -off by ring]

theorem saturatingAdd8_sword_pos (x : Nat) : 0 < saturatingAdd8 SWORD_DAMAGE x := by
  unfold saturatingAdd8 SWORD_DAMAGE
  exact lt_min (by omega) (by omega)

theorem distV2_simple : distV2 ((0 : ℝ), (0 : ℝ)) ((50 : ℝ), (0 : ℝ)) = 50 := by
  unfold distV2
  norm_num
  rw [show (2500 : ℝ) = 50 ^ 2 by norm_num, Real.sqrt_sq (by norm_num : (0:ℝ) ≤ 50)]

/-- C2: for every AttackEvent resolved between two players, an active shield
on the attacker or on the target cancels the attack entirely for that pair:
both states are returned unchanged (no health, stats or score change).  The
statement has no hypothesis about positions, directions, distances or
buffered health, so the skip happens before any distance or angle
computation (it holds even when every buffer slot is absent). -/
theorem shield_blocks_pair_before_geometry {cap : Nat} (ddu t : Nat)
    (ev : AttackEvent) (a b : PState cap)
    (h : a.shieldActive = true ∨ b.shieldActive = true) :
    resolvePair ddu t ev a b = some (a, b) := by
  by_cases hid : a.id ≠ ev.id
  · simp [resolvePair, hid]
  · have hsh : b.shieldActive = true ∨ a.shieldActive = true := h.symm
    simp [resolvePair, hid, hsh]

theorem shield_blocks_pair_before_geometry_witness :
    resolvePair 0 0 ⟨0, 0⟩
      { mkAttacker 8 0 ((0 : ℝ), (0 : ℝ)) 0 with shieldActive := true }
      (mkTarget 8 0 ((0 : ℝ), (0 : ℝ)) CircularBuffer.new) =
      some ({ mkAttacker 8 0 ((0 : ℝ), (0 : ℝ)) 0 with shieldActive := true },
            mkTarget 8 0 ((0 : ℝ), (0 : ℝ)) CircularBuffer.new) :=
  shield_blocks_pair_before_geometry 0 0 ⟨0, 0⟩ _ _ (Or.inl rfl)

/-- C4: for an AttackEvent with sequence tick `ev.seq_num` processed at
current tick `t`, the attacker's direction and position and the target's
position are read at the sequence tick (the hypotheses constrain only those
slots), and on a hit the damage — base `SWORD_DAMAGE = 40` plus the
saturating per-stack `DamageDealtUp` bonus — is subtracted with saturating
(`Nat`-truncated `u8`) arithmetic from the target's health slot at the
current tick `t`; no other buffer of either combatant changes. -/
theorem lag_compensated_damage {cap : Nat} (ddu t : Nat) (ev : AttackEvent)
    (a b : PState cap) (θ : ℝ) (p q : ℝ × ℝ) (h0 : Nat)
    (hid : a.id = ev.id) (htid : b.id ≠ ev.id)
    (hsa : a.shieldActive = false) (hsb : b.shieldActive = false)
    (hdb : a.db.get ev.seq_num = some θ) (hpb : a.pb.get ev.seq_num = some p)
    (htpb : b.pb.get ev.seq_num = some q)
    (hdist : distV2 p q ≤ SWORD_LENGTH)
    (hang : |specNormalize (θ - atan2 (q.2 - p.2) (q.1 - p.1))| ≤
      toRadians SWORD_DEGREES)
    (hhb : b.hb.get t = some h0) :
    ∃ a' b', resolvePair ddu t ev a b = some (a', b') ∧
      b'.hb = b.hb.set t (some (h0 - saturatingAdd8 SWORD_DAMAGE
        (saturatingMul8 (a.spu PowerUpType.DamageDealtUp) ddu))) ∧
      b'.pb = b.pb ∧ b'.db = b.db ∧ b'.eb = b.eb ∧
      a'.pb = a.pb ∧ a'.db = a.db ∧ a'.hb = a.hb ∧ a'.eb = a.eb := by
  rw [resolvePair_hit_eval ddu t ev a b θ p q h0 hid htid hsa hsb hdb hpb htpb
    hdist hang hhb]
  by_cases hz : h0 - saturatingAdd8 SWORD_DAMAGE
      (saturatingMul8 (a.spu PowerUpType.DamageDealtUp) ddu) ≤ 0
  · exact ⟨{ a with stats := killUpdateAttacker a.stats },
      { b with
        hb := b.hb.set t (some (h0 - saturatingAdd8 SWORD_DAMAGE
          (saturatingMul8 (a.spu PowerUpType.DamageDealtUp) ddu)))
        stats := killUpdateTarget b.stats },
      by simp [hz], rfl, rfl, rfl, rfl, rfl, rfl, rfl, rfl⟩
  · exact ⟨a,
      { b with
        hb := b.hb.set t (some (h0 - saturatingAdd8 SWORD_DAMAGE
          (saturatingMul8 (a.spu PowerUpType.DamageDealtUp) ddu))) },
      by simp [hz], rfl, rfl, rfl, rfl, rfl, rfl, rfl, rfl⟩

theorem lag_compensated_damage_witness :
    ∃ a' b', resolvePair 0 9 ⟨5, 0⟩ (mkAttacker 8 5 ((0 : ℝ), (0 : ℝ)) 0)
        (mkTarget 8 5 ((50 : ℝ), (0 : ℝ)) (CircularBuffer.new.set 9 (some 100))) =
        some (a', b') ∧
      b'.hb = (CircularBuffer.new.set 9 (some 100)).set 9 (some (100 -
        saturatingAdd8 SWORD_DAMAGE (saturatingMul8 0 0))) ∧
      b'.pb = (mkTarget 8 5 ((50 : ℝ), (0 : ℝ))
        (CircularBuffer.new.set 9 (some 100))).pb ∧
      b'.db = CircularBuffer.new ∧ b'.eb = CircularBuffer.new ∧
      a'.pb = (mkAttacker 8 5 ((0 : ℝ), (0 : ℝ)) 0).pb ∧
      a'.db = (mkAttacker 8 5 ((0 : ℝ), (0 : ℝ)) 0).db ∧
      a'.hb = CircularBuffer.new ∧ a'.eb = CircularBuffer.new :=
  lag_compensated_damage 0 9 ⟨5, 0⟩ _ _ 0 ((0 : ℝ), (0 : ℝ)) ((50 : ℝ), (0 : ℝ)) 100
    rfl (by decide) rfl rfl
    (CircularBuffer.get_set_same _ _ _) (CircularBuffer.get_set_same _ _ _)
    (CircularBuffer.get_set_same _ _ _)
    (by rw [distV2_simple]; unfold SWORD_LENGTH; norm_num)
    (by
      norm_num
      rw [atan2_zero_pos (by norm_num : (0:ℝ) < 50)]
      simp [specNormalize_zero]
      exact toRadians_nonneg (by unfold SWORD_DEGREES; norm_num))
    (CircularBuffer.get_set_same _ _ _)

/-- C5: a target whose buffered health at the current tick is 10 and which
takes the base 40 damage ends at exactly 0 (saturating, never negative);
`health_simulate` fires the death transition (dead set, visibility hidden,
local-death notification iff local) exactly once for the positive-to-zero
crossing, and a subsequent tick at health 0 with `dead` already set fires no
further transition. -/
theorem saturating_kill_single_death_transition :
    (∀ {cap : Nat} (ddu t : Nat) (ev : AttackEvent) (a b : PState cap)
      (θ : ℝ) (p q : ℝ × ℝ),
      a.id = ev.id → b.id ≠ ev.id →
      a.shieldActive = false → b.shieldActive = false →
      a.db.get ev.seq_num = some θ → a.pb.get ev.seq_num = some p →
      b.pb.get ev.seq_num = some q →
      distV2 p q ≤ SWORD_LENGTH →
      |specNormalize (θ - atan2 (q.2 - p.2) (q.1 - p.1))| ≤
        toRadians SWORD_DEGREES →
      a.spu PowerUpType.DamageDealtUp = 0 →
      b.hb.get t = some 10 →
      ∃ a' b', resolvePair ddu t ev a b = some (a', b') ∧
        b'.hb.get t = some 0) ∧
    (∀ {cap : Nat} (t : Nat) (hb : CircularBuffer cap Nat) (hp : Health)
      (vis : Visibility) (l : Bool),
      hb.get t = some 0 → hp.dead = false →
      health_simulate t hb hp vis l =
        (⟨0, PLAYER_DEFAULT_HP, true⟩, Visibility.Hidden, l, false)) ∧
    (∀ {cap : Nat} (t : Nat) (hb : CircularBuffer cap Nat) (hp : Health)
      (vis : Visibility) (l : Bool),
      hb.get t = some 0 → hp.dead = true →
      health_simulate t hb hp vis l =
        (⟨0, PLAYER_DEFAULT_HP, true⟩, vis, false, false)) := by
  refine ⟨?_, ?_, ?_⟩
  · intro cap ddu t ev a b θ p q hid htid hsa hsb hdb hpb htpb hdist hang hspu hhb
    rw [resolvePair_hit_eval ddu t ev a b θ p q 10 hid htid hsa hsb hdb hpb htpb
      hdist hang hhb]
    have hd : saturatingAdd8 SWORD_DAMAGE
        (saturatingMul8 (a.spu PowerUpType.DamageDealtUp) ddu) = 40 := by
      simp [hspu, saturatingMul8, saturatingAdd8, SWORD_DAMAGE]
    refine ⟨{ a with stats := killUpdateAttacker a.stats },
      { b with hb := b.hb.set t (some 0), stats := killUpdateTarget b.stats },
      by simp [hd], ?_⟩
    exact CircularBuffer.get_set_same _ _ _
  · intro cap t hb hp vis l hget hdead
    simp [health_simulate, hget, hdead]
  · intro cap t hb hp vis l hget hdead
    simp [health_simulate, hget, hdead]

theorem saturating_kill_single_death_transition_witness :
    (∃ a' b', resolvePair 0 9 ⟨5, 0⟩ (mkAttacker 8 5 ((0 : ℝ), (0 : ℝ)) 0)
        (mkTarget 8 5 ((50 : ℝ), (0 : ℝ)) (CircularBuffer.new.set 9 (some 10))) =
        some (a', b') ∧ b'.hb.get 9 = some 0) ∧
    health_simulate 3 ((CircularBuffer.new : CircularBuffer 8 Nat).set 3 (some 0))
        ⟨5, PLAYER_DEFAULT_HP, false⟩ Visibility.Visible true =
      (⟨0, PLAYER_DEFAULT_HP, true⟩, Visibility.Hidden, true, false) ∧
    health_simulate 4 ((CircularBuffer.new : CircularBuffer 8 Nat).set 4 (some 0))
        ⟨0, PLAYER_DEFAULT_HP, true⟩ Visibility.Hidden true =
      (⟨0, PLAYER_DEFAULT_HP, true⟩, Visibility.Hidden, false, false) :=
  ⟨saturating_kill_single_death_transition.1 0 9 ⟨5, 0⟩ _ _ 0
      ((0 : ℝ), (0 : ℝ)) ((50 : ℝ), (0 : ℝ)) rfl (by decide) rfl rfl
      (CircularBuffer.get_set_same _ _ _) (CircularBuffer.get_set_same _ _ _)
      (CircularBuffer.get_set_same _ _ _)
      (by rw [distV2_simple]; unfold SWORD_LENGTH; norm_num)
      (by
        norm_num
        rw [atan2_zero_pos (by norm_num : (0:ℝ) < 50)]
        simp [specNormalize_zero]
        exact toRadians_nonneg (by unfold SWORD_DEGREES; norm_num))
      rfl (CircularBuffer.get_set_same _ _ _),
   saturating_kill_single_death_transition.2.1 3 _ _ Visibility.Visible true
      (CircularBuffer.get_set_same _ _ _) rfl,
   saturating_kill_single_death_transition.2.2 4 _ _ Visibility.Hidden true
      (CircularBuffer.get_set_same _ _ _) rfl⟩

/-- C3: with the attacker's and target's slots present at the sequence tick
(and shields inactive, distinct ids, target health slot present so that the
code does not panic), a resolved attack changes the pair if and only if the
distance is at most the weapon reach `SWORD_LENGTH = 90` and the absolute
angular difference between the facing `θ` and the attacker-to-target angle,
normalized into `(−π, π]`, is at most `toRadians SWORD_DEGREES` (the 70°
cone half-angle).  In particular a target at relative angle `θ + π/2`
within reach is a miss, and one at `θ + 0.1°` within reach is a hit. -/
theorem hit_iff_reach_and_cone :
    (∀ {cap : Nat} (ddu t : Nat) (ev : AttackEvent) (a b : PState cap)
      (θ : ℝ) (p q : ℝ × ℝ) (h0 : Nat),
      a.id = ev.id → b.id ≠ ev.id →
      a.shieldActive = false → b.shieldActive = false →
      a.db.get ev.seq_num = some θ → a.pb.get ev.seq_num = some p →
      b.pb.get ev.seq_num = some q → b.hb.get t = some h0 →
      (resolvePair ddu t ev a b ≠ some (a, b) ↔
        distV2 p q ≤ SWORD_LENGTH ∧
        |specNormalize (θ - atan2 (q.2 - p.2) (q.1 - p.1))| ≤
          toRadians SWORD_DEGREES)) ∧
    (∀ {cap : Nat} (ddu s t : Nat) (θ r : ℝ) (p : ℝ × ℝ)
      (hb : CircularBuffer cap Nat),
      0 < r → r ≤ 90 →
      resolvePair ddu t ⟨s, 0⟩ (mkAttacker cap s p θ)
        (mkTarget cap s
          (p.1 + r * Real.cos (θ + π / 2), p.2 + r * Real.sin (θ + π / 2)) hb) =
      some (mkAttacker cap s p θ,
        mkTarget cap s
          (p.1 + r * Real.cos (θ + π / 2), p.2 + r * Real.sin (θ + π / 2)) hb)) ∧
    (∀ {cap : Nat} (ddu s t : Nat) (θ r : ℝ) (p : ℝ × ℝ),
      0 < r → r ≤ 90 →
      resolvePair ddu t ⟨s, 0⟩ (mkAttacker cap s p θ)
        (mkTarget cap s
          (p.1 + r * Real.cos (θ + toRadians 0.1),
           p.2 + r * Real.sin (θ + toRadians 0.1))
          (CircularBuffer.new.set t (some 100))) =
      some (mkAttacker cap s p θ,
        { mkTarget cap s
            (p.1 + r * Real.cos (θ + toRadians 0.1),
             p.2 + r * Real.sin (θ + toRadians 0.1))
            (CircularBuffer.new.set t (some 100)) with
          hb := (CircularBuffer.new.set t (some 100)).set t (some 60) })) := by
  refine ⟨?_, ?_, ?_⟩
  · intro cap ddu t ev a b θ p q h0 hid htid hsa hsb hdb hpb htpb hhb
    constructor
    · intro hne
      by_contra hmiss
      exact hne (resolvePair_miss_eval ddu t ev a b θ p q hdb hpb htpb hmiss)
    · rintro ⟨hd, hang⟩
      rw [resolvePair_hit_eval ddu t ev a b θ p q h0 hid htid hsa hsb hdb hpb
        htpb hd hang hhb]
      by_cases hz : h0 - saturatingAdd8 SWORD_DAMAGE
          (saturatingMul8 (a.spu PowerUpType.DamageDealtUp) ddu) ≤ 0
      · simp only [if_pos hz]
        intro heq
        injection heq with hpair
        have hb2 := congrArg Prod.snd hpair
        have hdth := congrArg (fun s => s.stats.deaths) hb2
        simp [killUpdateTarget] at hdth
      · simp only [if_neg hz]
        intro heq
        injection heq with hpair
        have hb2 := congrArg Prod.snd hpair
        have hg := congrArg (fun s => s.hb.get t) hb2
        simp only [CircularBuffer.get_set_same] at hg
        rw [hhb] at hg
        injection hg with hval
        have hpos := saturatingAdd8_sword_pos
          (saturatingMul8 (a.spu PowerUpType.DamageDealtUp) ddu)
        omega
  · intro cap ddu s t θ r p hb hr hr90
    apply resolvePair_miss_eval ddu t ⟨s, 0⟩ _ _ θ p
      (p.1 + r * Real.cos (θ + π / 2), p.2 + r * Real.sin (θ + π / 2))
      (CircularBuffer.get_set_same _ _ _) (CircularBuffer.get_set_same _ _ _)
      (CircularBuffer.get_set_same _ _ _)
    rintro ⟨-, hang⟩
    have hcomb : atan2
        (((p.1 + r * Real.cos (θ + π / 2), p.2 + r * Real.sin (θ + π / 2)) :
          ℝ × ℝ).2 - p.2)
        (((p.1 + r * Real.cos (θ + π / 2), p.2 + r * Real.sin (θ + π / 2)) :
          ℝ × ℝ).1 - p.1) = specNormalize (θ + π / 2) :=
      atan2_polar p hr (θ + π / 2)
    rw [hcomb, specNormalize_rel] at hang
    have hval : specNormalize (-(π / 2)) = -(π / 2) :=
      specNormalize_eq_self ⟨by linarith [Real.pi_pos], by linarith [Real.pi_pos]⟩
    rw [hval, abs_neg, abs_of_pos (by linarith [Real.pi_pos] : (0:ℝ) < π / 2)]
      at hang
    unfold toRadians SWORD_DEGREES at hang
    linarith [Real.pi_pos]
  · intro cap ddu s t θ r p hr hr90
    have hcomb : atan2
        (((p.1 + r * Real.cos (θ + toRadians 0.1),
           p.2 + r * Real.sin (θ + toRadians 0.1)) : ℝ × ℝ).2 - p.2)
        (((p.1 + r * Real.cos (θ + toRadians 0.1),
           p.2 + r * Real.sin (θ + toRadians 0.1)) : ℝ × ℝ).1 - p.1) =
        specNormalize (θ + toRadians 0.1) :=
      atan2_polar p hr (θ + toRadians 0.1)
    have hval : specNormalize (-(toRadians 0.1)) = -(toRadians 0.1) := by
      refine specNormalize_eq_self ⟨?_, ?_⟩ <;>
        · unfold toRadians
          norm_num
          linarith [Real.pi_pos]
    rw [resolvePair_hit_eval ddu t ⟨s, 0⟩ (mkAttacker cap s p θ)
      (mkTarget cap s
        (p.1 + r * Real.cos (θ + toRadians 0.1),
         p.2 + r * Real.sin (θ + toRadians 0.1))
        (CircularBuffer.new.set t (some 100))) θ p
      (p.1 + r * Real.cos (θ + toRadians 0.1),
       p.2 + r * Real.sin (θ + toRadians 0.1)) 100 rfl
      Nat.one_ne_zero rfl rfl
      (CircularBuffer.get_set_same _ _ _) (CircularBuffer.get_set_same _ _ _)
      (CircularBuffer.get_set_same _ _ _)
      (by rw [distV2_polar p hr.le]; exact hr90)
      (by
        rw [hcomb, specNormalize_rel, hval, abs_neg,
          abs_of_nonneg (toRadians_nonneg (by norm_num))]
        unfold toRadians SWORD_DEGREES
        linarith [Real.pi_pos])
      (CircularBuffer.get_set_same _ _ _)]
    have hdmg : saturatingAdd8 SWORD_DAMAGE
        (saturatingMul8 ((mkAttacker cap s p θ).spu PowerUpType.DamageDealtUp)
          ddu) = 40 := by
      simp [mkAttacker, saturatingMul8, saturatingAdd8, SWORD_DAMAGE]
    simp only [hdmg]
    norm_num
    rfl

theorem hit_iff_reach_and_cone_witness :
    ((resolvePair 0 9 ⟨5, 0⟩ (mkAttacker 8 5 ((0 : ℝ), (0 : ℝ)) 0)
        (mkTarget 8 5 ((50 : ℝ), (0 : ℝ)) (CircularBuffer.new.set 9 (some 100))) ≠
        some (mkAttacker 8 5 ((0 : ℝ), (0 : ℝ)) 0,
          mkTarget 8 5 ((50 : ℝ), (0 : ℝ)) (CircularBuffer.new.set 9 (some 100))) ↔
      distV2 ((0 : ℝ), (0 : ℝ)) ((50 : ℝ), (0 : ℝ)) ≤ SWORD_LENGTH ∧
      |specNormalize ((0 : ℝ) -
        atan2 (((50 : ℝ), (0 : ℝ)).2 - ((0 : ℝ), (0 : ℝ)).2)
          (((50 : ℝ), (0 : ℝ)).1 - ((0 : ℝ), (0 : ℝ)).1))| ≤
        toRadians SWORD_DEGREES) ∧
    (resolvePair 0 9 ⟨5, 0⟩ (mkAttacker 8 5 ((0 : ℝ), (0 : ℝ)) 0)
        (mkTarget 8 5
          (((0 : ℝ), (0 : ℝ)).1 + 50 * Real.cos ((0 : ℝ) + π / 2),
           ((0 : ℝ), (0 : ℝ)).2 + 50 * Real.sin ((0 : ℝ) + π / 2))
          (CircularBuffer.new : CircularBuffer 8 Nat)) =
      some (mkAttacker 8 5 ((0 : ℝ), (0 : ℝ)) 0,
        mkTarget 8 5
          (((0 : ℝ), (0 : ℝ)).1 + 50 * Real.cos ((0 : ℝ) + π / 2),
           ((0 : ℝ), (0 : ℝ)).2 + 50 * Real.sin ((0 : ℝ) + π / 2))
          (CircularBuffer.new : CircularBuffer 8 Nat))) ∧
    (resolvePair 0 9 ⟨5, 0⟩ (mkAttacker 8 5 ((0 : ℝ), (0 : ℝ)) 0)
        (mkTarget 8 5
          (((0 : ℝ), (0 : ℝ)).1 + 50 * Real.cos ((0 : ℝ) + toRadians 0.1),
           ((0 : ℝ), (0 : ℝ)).2 + 50 * Real.sin ((0 : ℝ) + toRadians 0.1))
          (CircularBuffer.new.set 9 (some 100))) =
      some (mkAttacker 8 5 ((0 : ℝ), (0 : ℝ)) 0,
        { mkTarget 8 5
            (((0 : ℝ), (0 : ℝ)).1 + 50 * Real.cos ((0 : ℝ) + toRadians 0.1),
             ((0 : ℝ), (0 : ℝ)).2 + 50 * Real.sin ((0 : ℝ) + toRadians 0.1))
            (CircularBuffer.new.set 9 (some 100)) with
          hb := (CircularBuffer.new.set 9 (some 100)).set 9 (some 60) }))) :=
  ⟨hit_iff_reach_and_cone.1 0 9 ⟨5, 0⟩ (mkAttacker 8 5 ((0 : ℝ), (0 : ℝ)) 0)
      (mkTarget 8 5 ((50 : ℝ), (0 : ℝ)) (CircularBuffer.new.set 9 (some 100)))
      0 ((0 : ℝ), (0 : ℝ)) ((50 : ℝ), (0 : ℝ)) 100 rfl (by decide) rfl rfl
      (CircularBuffer.get_set_same _ _ _) (CircularBuffer.get_set_same _ _ _)
      (CircularBuffer.get_set_same _ _ _) (CircularBuffer.get_set_same _ _ _),
   hit_iff_reach_and_cone.2.1 0 5 9 (0 : ℝ) 50 ((0 : ℝ), (0 : ℝ))
      (CircularBuffer.new : CircularBuffer 8 Nat) (by norm_num) (by norm_num),
   hit_iff_reach_and_cone.2.2 0 5 9 (0 : ℝ) 50 ((0 : ℝ), (0 : ℝ))
      (by norm_num) (by norm_num)⟩

/-- C1: contrary to the spec, an absent health-buffer slot at the current
tick is not skipped: `attack_simulate` unwraps it (player.rs lines 400 and
455) and `powerup_grab_simulate` unwraps it (line 276), so resolution
aborts (modelled by `none`) — here on an enemy with a buffered position at
the sequence tick but no health at the current tick, on a player target in
reach and in the cone with no health at the current tick, and on a Meat
pickup in range with no health at the current tick. -/
theorem absent_health_slot_panics :
    resolveEnemy 0 3 ⟨3, 0⟩ ((0 : ℝ), (0 : ℝ)) 0 0 0
      (⟨(CircularBuffer.new : CircularBuffer 8 (ℝ × ℝ)).set 3
          (some ((0 : ℝ), (0 : ℝ))),
        CircularBuffer.new, none⟩ : EState 8) = none ∧
    resolvePair 0 9 ⟨5, 0⟩ (mkAttacker 8 5 ((0 : ℝ), (0 : ℝ)) 0)
      (mkTarget 8 5 ((50 : ℝ), (0 : ℝ)) CircularBuffer.new) = none ∧
    powerup_grab 20 2 7 ((0 : ℝ), (0 : ℝ)) ((0 : ℝ), (0 : ℝ)) PowerUpType.Meat
      (CircularBuffer.new : CircularBuffer 8 Nat) DEFAULT_COOLDOWN
      (fun _ => 0) = none := by
  refine ⟨rfl, ?_, ?_⟩
  · exact resolvePair_panic_eval 0 9 ⟨5, 0⟩ _ _ 0 ((0 : ℝ), (0 : ℝ))
      ((50 : ℝ), (0 : ℝ)) rfl (by decide) rfl rfl
      (CircularBuffer.get_set_same _ _ _) (CircularBuffer.get_set_same _ _ _)
      (CircularBuffer.get_set_same _ _ _)
      (by rw [distV2_simple]; unfold SWORD_LENGTH; norm_num)
      (by
        norm_num
        rw [atan2_zero_pos (by norm_num : (0:ℝ) < 50)]
        simp [specNormalize_zero]
        exact toRadians_nonneg (by unfold SWORD_DEGREES; norm_num))
      rfl
  · have h32 : distV2 ((0 : ℝ), (0 : ℝ)) ((0 : ℝ), (0 : ℝ)) < 32 := by
      unfold distV2
      norm_num
    have h32' : distV2 (0 : ℝ × ℝ) (0 : ℝ × ℝ) < 32 := h32
    simp [powerup_grab, h32, h32', CircularBuffer.new, CircularBuffer.get]

theorem hpt_id {cap : Nat} (asu : ℝ) (t : Nat) (ev : SnapshotEvent)
    (p : PState cap) : (handle_player_tick asu t ev p).id = p.id := by
  by_cases h : p.id = ev.id <;> simp [handle_player_tick, h]

theorem hpt_isLocal {cap : Nat} (asu : ℝ) (t : Nat) (ev : SnapshotEvent)
    (p : PState cap) : (handle_player_tick asu t ev p).isLocal = p.isLocal := by
  by_cases h : p.id = ev.id <;> simp [handle_player_tick, h]

theorem hpt_pb {cap : Nat} (asu : ℝ) (t : Nat) (ev : SnapshotEvent)
    (p : PState cap) (hid : p.id = ev.id) :
    (handle_player_tick asu t ev p).pb = p.pb.set ev.seq_num (some ev.pos) := by
  simp [handle_player_tick, hid]

theorem hpt_db {cap : Nat} (asu : ℝ) (t : Nat) (ev : SnapshotEvent)
    (p : PState cap) (hid : p.id = ev.id) :
    (handle_player_tick asu t ev p).db = p.db.set ev.seq_num (some ev.dir) := by
  simp [handle_player_tick, hid]

theorem hpt_hb {cap : Nat} (asu : ℝ) (t : Nat) (ev : SnapshotEvent)
    (p : PState cap) (hid : p.id = ev.id) :
    (handle_player_tick asu t ev p).hb = p.hb.set t (some ev.hp) := by
  simp [handle_player_tick, hid]

theorem hpt_eb_remote {cap : Nat} (asu : ℝ) (t : Nat) (ev : SnapshotEvent)
    (p : PState cap) (hid : p.id = ev.id) (hl : p.isLocal = false) :
    (handle_player_tick asu t ev p).eb = p.eb.set ev.seq_num (some ev.events) := by
  simp [handle_player_tick, hid, hl]

theorem huc_id {cap : Nat} (ev : UserCmdEvent) (p : PState cap) :
    (handle_usercmd ev p).1.id = p.id := by
  by_cases h : p.id = ev.id <;> simp [handle_usercmd, h]

theorem huc_pb {cap : Nat} (ev : UserCmdEvent) (p : PState cap)
    (hid : p.id = ev.id) :
    (handle_usercmd ev p).1.pb =
      p.pb.set_with_time ev.seq_num (some ev.pos) ev.seq_num := by
  simp [handle_usercmd, hid]

theorem huc_db {cap : Nat} (ev : UserCmdEvent) (p : PState cap)
    (hid : p.id = ev.id) :
    (handle_usercmd ev p).1.db = p.db.set ev.seq_num (some ev.dir) := by
  simp [handle_usercmd, hid]

theorem huc_eb {cap : Nat} (ev : UserCmdEvent) (p : PState cap)
    (hid : p.id = ev.id) :
    (handle_usercmd ev p).1.eb = p.eb.set ev.seq_num (some ev.events) := by
  simp [handle_usercmd, hid]

/-- C6: applying the same Snapshot for an `(entity, tick)` twice yields
state identical to applying it once, and for Snapshots and Commands with
the same `(entity, tick)` key applied in sequence, the later write
determines every buffer slot it touches (position and direction at the
sequence tick, events for non-local entities, health at the current tick). -/
theorem snapshot_idempotent_and_last_write_wins :
    (∀ {cap : Nat} (asu : ℝ) (t : Nat) (ev : SnapshotEvent) (p : PState cap),
      handle_player_tick asu t ev (handle_player_tick asu t ev p) =
        handle_player_tick asu t ev p) ∧
    (∀ {cap : Nat} (asu : ℝ) (t : Nat) (ev1 ev2 : SnapshotEvent) (p : PState cap),
      ev1.id = ev2.id → ev1.seq_num = ev2.seq_num → p.id = ev2.id →
      (handle_player_tick asu t ev2 (handle_player_tick asu t ev1 p)).pb.get
          ev2.seq_num = some ev2.pos ∧
      (handle_player_tick asu t ev2 (handle_player_tick asu t ev1 p)).db.get
          ev2.seq_num = some ev2.dir ∧
      (handle_player_tick asu t ev2 (handle_player_tick asu t ev1 p)).hb.get t =
        some ev2.hp ∧
      (p.isLocal = false →
        (handle_player_tick asu t ev2 (handle_player_tick asu t ev1 p)).eb.get
          ev2.seq_num = some ev2.events)) ∧
    (∀ {cap : Nat} (ev1 ev2 : UserCmdEvent) (p : PState cap),
      ev1.id = ev2.id → ev1.seq_num = ev2.seq_num → p.id = ev2.id →
      (handle_usercmd ev2 (handle_usercmd ev1 p).1).1.pb.get ev2.seq_num =
        some ev2.pos ∧
      (handle_usercmd ev2 (handle_usercmd ev1 p).1).1.db.get ev2.seq_num =
        some ev2.dir ∧
      (handle_usercmd ev2 (handle_usercmd ev1 p).1).1.eb.get ev2.seq_num =
        some ev2.events) := by
  refine ⟨?_, ?_, ?_⟩
  · intro cap asu t ev p
    by_cases hid : p.id = ev.id
    · by_cases hl : p.isLocal = true <;>
      by_cases hbit : ev.events &&& SHIELD_BITFLAG ≠ 0 <;>
      simp [handle_player_tick, hid, hl, hbit, CircularBuffer.set_set_same]
    · simp [handle_player_tick, hid]
  · intro cap asu t ev1 ev2 p hid12 hseq hpid
    have h2 : (handle_player_tick asu t ev1 p).id = ev2.id := by
      rw [hpt_id, hpid]
    refine ⟨?_, ?_, ?_, fun hnl => ?_⟩
    · rw [hpt_pb asu t ev2 _ h2, CircularBuffer.get_set_same]
    · rw [hpt_db asu t ev2 _ h2, CircularBuffer.get_set_same]
    · rw [hpt_hb asu t ev2 _ h2, CircularBuffer.get_set_same]
    · rw [hpt_eb_remote asu t ev2 _ h2 (by rw [hpt_isLocal]; exact hnl),
        CircularBuffer.get_set_same]
  · intro cap ev1 ev2 p hid12 hseq hpid
    have h2 : (handle_usercmd ev1 p).1.id = ev2.id := by rw [huc_id, hpid]
    refine ⟨?_, ?_, ?_⟩
    · rw [huc_pb ev2 _ h2, CircularBuffer.get_set_with_time_same]
    · rw [huc_db ev2 _ h2, CircularBuffer.get_set_same]
    · rw [huc_eb ev2 _ h2, CircularBuffer.get_set_same]

theorem snapshot_idempotent_and_last_write_wins_witness :
    (handle_player_tick 2 7 ⟨3, 1, ((1 : ℝ), (0 : ℝ)), 0, 4, 50, ⟨1, 2, 3, 4, 5, 6⟩,
        fun _ => 1⟩
      (handle_player_tick 2 7 ⟨3, 1, ((1 : ℝ), (0 : ℝ)), 0, 4, 50, ⟨1, 2, 3, 4, 5, 6⟩,
          fun _ => 1⟩
        (mkTarget 8 0 ((0 : ℝ), (0 : ℝ)) CircularBuffer.new)) =
      handle_player_tick 2 7 ⟨3, 1, ((1 : ℝ), (0 : ℝ)), 0, 4, 50, ⟨1, 2, 3, 4, 5, 6⟩,
          fun _ => 1⟩
        (mkTarget 8 0 ((0 : ℝ), (0 : ℝ)) CircularBuffer.new)) ∧
    (handle_player_tick 2 7 ⟨3, 1, ((2 : ℝ), (0 : ℝ)), 1, 0, 60, ⟨0, 0, 0, 0, 0, 0⟩,
        fun _ => 0⟩
      (handle_player_tick 2 7 ⟨3, 1, ((1 : ℝ), (0 : ℝ)), 0, 4, 50, ⟨1, 2, 3, 4, 5, 6⟩,
          fun _ => 1⟩
        (mkTarget 8 0 ((0 : ℝ), (0 : ℝ)) CircularBuffer.new))).pb.get 3 =
      some ((2 : ℝ), (0 : ℝ)) ∧
    (handle_usercmd ⟨3, 1, ((2 : ℝ), (0 : ℝ)), 1, 0⟩
      (handle_usercmd ⟨3, 1, ((1 : ℝ), (0 : ℝ)), 0, 4⟩
        (mkTarget 8 0 ((0 : ℝ), (0 : ℝ)) CircularBuffer.new)).1).1.eb.get 3 =
      some 0 :=
  ⟨snapshot_idempotent_and_last_write_wins.1 2 7 _ _,
   (snapshot_idempotent_and_last_write_wins.2.1 2 7
      ⟨3, 1, ((1 : ℝ), (0 : ℝ)), 0, 4, 50, ⟨1, 2, 3, 4, 5, 6⟩, fun _ => 1⟩
      ⟨3, 1, ((2 : ℝ), (0 : ℝ)), 1, 0, 60, ⟨0, 0, 0, 0, 0, 0⟩, fun _ => 0⟩
      (mkTarget 8 0 ((0 : ℝ), (0 : ℝ)) CircularBuffer.new) rfl rfl rfl).1,
   (snapshot_idempotent_and_last_write_wins.2.2
      ⟨3, 1, ((1 : ℝ), (0 : ℝ)), 0, 4⟩ ⟨3, 1, ((2 : ℝ), (0 : ℝ)), 1, 0⟩
      (mkTarget 8 0 ((0 : ℝ), (0 : ℝ)) CircularBuffer.new) rfl rfl rfl).2.2⟩

/-- C9: an incoming Snapshot for the entity with matching id overwrites its
stats, powerups and health unconditionally (health at the current tick),
overwrites its position and direction buffers at the snapshot's tick, and
leaves the event buffer unchanged exactly when the entity is the locally
controlled one (otherwise the event buffer is overwritten at that tick). -/
theorem snapshot_overwrite_except_local_events {cap : Nat} (asu : ℝ) (t : Nat)
    (ev : SnapshotEvent) (p : PState cap) (hid : p.id = ev.id) :
    (handle_player_tick asu t ev p).stats = ev.stats ∧
    (handle_player_tick asu t ev p).spu = ev.powerups ∧
    (handle_player_tick asu t ev p).hb.get t = some ev.hp ∧
    (handle_player_tick asu t ev p).pb.get ev.seq_num = some ev.pos ∧
    (handle_player_tick asu t ev p).db.get ev.seq_num = some ev.dir ∧
    (p.isLocal = true → (handle_player_tick asu t ev p).eb = p.eb) ∧
    (p.isLocal = false →
      (handle_player_tick asu t ev p).eb = p.eb.set ev.seq_num (some ev.events)) := by
  refine ⟨?_, ?_, ?_, ?_, ?_, fun hl => ?_, fun hl => ?_⟩ <;>
    simp [handle_player_tick, hid, CircularBuffer.get_set_same, *]

theorem snapshot_overwrite_except_local_events_witness :
    (handle_player_tick 2 7
        ⟨3, 1, ((1 : ℝ), (0 : ℝ)), 0, 4, 50, ⟨1, 2, 3, 4, 5, 6⟩, fun _ => 1⟩
        (mkTarget 8 0 ((0 : ℝ), (0 : ℝ)) CircularBuffer.new)).stats =
      (⟨1, 2, 3, 4, 5, 6⟩ : Stats) ∧
    (handle_player_tick 2 7
        ⟨3, 1, ((1 : ℝ), (0 : ℝ)), 0, 4, 50, ⟨1, 2, 3, 4, 5, 6⟩, fun _ => 1⟩
        (mkTarget 8 0 ((0 : ℝ), (0 : ℝ)) CircularBuffer.new)).spu =
      (fun _ => 1) ∧
    (handle_player_tick 2 7
        ⟨3, 1, ((1 : ℝ), (0 : ℝ)), 0, 4, 50, ⟨1, 2, 3, 4, 5, 6⟩, fun _ => 1⟩
        (mkTarget 8 0 ((0 : ℝ), (0 : ℝ)) CircularBuffer.new)).hb.get 7 =
      some 50 ∧
    (handle_player_tick 2 7
        ⟨3, 1, ((1 : ℝ), (0 : ℝ)), 0, 4, 50, ⟨1, 2, 3, 4, 5, 6⟩, fun _ => 1⟩
        (mkTarget 8 0 ((0 : ℝ), (0 : ℝ)) CircularBuffer.new)).pb.get 3 =
      some ((1 : ℝ), (0 : ℝ)) ∧
    (handle_player_tick 2 7
        ⟨3, 1, ((1 : ℝ), (0 : ℝ)), 0, 4, 50, ⟨1, 2, 3, 4, 5, 6⟩, fun _ => 1⟩
        (mkTarget 8 0 ((0 : ℝ), (0 : ℝ)) CircularBuffer.new)).db.get 3 =
      some 0 ∧
    ((mkTarget 8 0 ((0 : ℝ), (0 : ℝ)) CircularBuffer.new).isLocal = true →
      (handle_player_tick 2 7
        ⟨3, 1, ((1 : ℝ), (0 : ℝ)), 0, 4, 50, ⟨1, 2, 3, 4, 5, 6⟩, fun _ => 1⟩
        (mkTarget 8 0 ((0 : ℝ), (0 : ℝ)) CircularBuffer.new)).eb =
        (mkTarget 8 0 ((0 : ℝ), (0 : ℝ)) CircularBuffer.new).eb) ∧
    ((mkTarget 8 0 ((0 : ℝ), (0 : ℝ)) CircularBuffer.new).isLocal = false →
      (handle_player_tick 2 7
        ⟨3, 1, ((1 : ℝ), (0 : ℝ)), 0, 4, 50, ⟨1, 2, 3, 4, 5, 6⟩, fun _ => 1⟩
        (mkTarget 8 0 ((0 : ℝ), (0 : ℝ)) CircularBuffer.new)).eb =
        (mkTarget 8 0 ((0 : ℝ), (0 : ℝ)) CircularBuffer.new).eb.set 3 (some 4)) :=
  snapshot_overwrite_except_local_events 2 7
    ⟨3, 1, ((1 : ℝ), (0 : ℝ)), 0, 4, 50, ⟨1, 2, 3, 4, 5, 6⟩, fun _ => 1⟩
    (mkTarget 8 0 ((0 : ℝ), (0 : ℝ)) CircularBuffer.new) rfl

/-- C7: evaluation of `handle_mouse_button_events` (input.rs line 88) at
one tick.  A press alone is recorded, but a press followed by a release
within the same tick leaves the tick's stored attack flag `false`: each
event overwrites the record cloned from tick − 1, so the press edge is
dropped — exactly the defect the source's own TODO comment at line 101
acknowledges ("if you click and release within one tick, the input will be
missed!!"), contradicting the OR-and-never-drop capture requirement. -/
theorem click_and_release_within_tick_dropped :
    ((handle_mouse_button_events 0 5 [⟨0, true⟩]
        (⟨fun _ => ⟨⟨((0 : ℝ), (0 : ℝ)), false⟩⟩⟩ : InputBuffer 8)).get
        5).input.attack = true ∧
    ((handle_mouse_button_events 0 5 [⟨0, true⟩, ⟨0, false⟩]
        (⟨fun _ => ⟨⟨((0 : ℝ), (0 : ℝ)), false⟩⟩⟩ : InputBuffer 8)).get
        5).input.attack = false :=
  ⟨rfl, rfl⟩

/-- C8 counterexample: `shield_draw` reads the event buffer at
`tick − DELAY` for every player — its query has no local/remote
distinction.  With delay 1 at tick 1, a buffer whose slot at the current
tick 1 holds the shield bit (and whose slot at tick 0 is absent) yields an
inactive, hidden shield, refuting the claim that the locally controlled
entity's shield is derived from the event buffer at the current, undelayed
tick. -/
theorem shield_draw_ignores_current_tick_counterexample :
    ((CircularBuffer.new.set 1 (some SHIELD_BITFLAG) :
        CircularBuffer 8 Nat).get 1).getD 0 &&& SHIELD_BITFLAG ≠ 0 ∧
    shield_draw 1 1
      (CircularBuffer.new.set 1 (some SHIELD_BITFLAG) : CircularBuffer 8 Nat) =
      (false, Visibility.Hidden) := by
  exact ⟨by decide, rfl⟩

/-- C8 (amended): for every entity — the locally controlled one included,
since `shield_draw` does not distinguish it — the shield active flag is
true exactly when the event-bitflag slot read at `tick − D` (saturating)
is present and has the shield bit set, and the shield child is visible
exactly when the flag is active. -/
theorem shield_state_from_delayed_slot {cap : Nat} (D tick : Nat)
    (eb : CircularBuffer cap Nat) :
    ((shield_draw D tick eb).1 = true ↔
      ∃ v, eb.get (tick - D) = some v ∧ v &&& SHIELD_BITFLAG ≠ 0) ∧
    ((shield_draw D tick eb).2 = Visibility.Visible ↔
      (shield_draw D tick eb).1 = true) := by
  unfold shield_draw
  rcases hg : eb.get (tick - D) with _ | v
  · simp [hg]
  · by_cases hb : v &&& SHIELD_BITFLAG ≠ 0 <;> simp [hg, hb]

/-- C10: while the local player's shield is active, `attack_input` leaves
the event buffer unchanged (no attack bit is written) and the cooldown
timer is only advanced, never reset; and `attack_host` emits no
AttackEvent, even when the attack bit is set in the tick's event slot. -/
theorem shield_disables_attacking :
    (∀ {cap : Nat} (delta : ℝ) (tick : Nat) (mp : Bool) (c : Timer)
      (eb : CircularBuffer cap Nat),
      attack_input delta tick mp c eb true = (c.tick delta, eb)) ∧
    (∀ {cap : Nat} (tick : Nat) (eb : CircularBuffer cap Nat),
      attack_host tick eb true = []) := by
  constructor
  · intro cap delta tick mp c eb
    simp [attack_input]
  · intro cap tick eb
    simp [attack_host]
